import Mathlib

/-!
Verification development for the `mcp-postgress` repository: a PostgreSQL
MCP server with two HTTP transport bindings.

Source files embedded here:
  * `src/dist/index.js`   — multiplexed binding (`POST/GET/DELETE /mcp`),
    plain-object session registry, per-session `Server` and `Pool`;
  * `src/unnamed/part_000` — push-channel binding (`GET /sse`,
    `POST /messages`), `Map`-based session registry, one global `Server`
    and `Pool`.

Both files install the same four request handlers
(ListResources, ReadResource, ListTools, CallTool); those are embedded
once below.  External collaborators (the `pg` pool, `JSON.stringify`,
the WHATWG `URL` class, the MCP SDK transports) appear as parameters of
the embedded handlers: an environment record supplies the outcome of each
database statement, and the handlers return the ordered trace of pool /
client actions they performed together with their result.
-/

namespace McpPostgres

/-- One observable action taken against the connection pool / a pooled
client, in program order.  `query` carries the statement text exactly as
the JS passes it to `client.query` (`none` models passing `undefined`);
`queryP` is the two-argument parameterized form
`client.query(text, values)`. -/
inductive DbAction where
  | connect : DbAction
  | query : Option String → DbAction
  | queryP : String → List (Option String) → DbAction
  | release : DbAction
  deriving DecidableEq, Repr

/-- A result row as `pg` returns it: an object, modelled as ordered
field/value pairs of strings. -/
abbrev Row := List (String × String)

/-- Stand-in for the host `JSON.stringify` on one row object.  Literal
braces are written with their escape codes. -/
def stringifyRow (r : Row) : String :=
  "\x7b" ++ String.intercalate ", " (r.map fun p => "\"" ++ p.1 ++ "\": \"" ++ p.2 ++ "\"") ++ "\x7d"

/-- Stand-in for the host `JSON.stringify` on `result.rows`. -/
def stringifyRows (rows : List Row) : String :=
  "[" ++ String.intercalate ", " (rows.map stringifyRow) ++ "]"

/-- `const SCHEMA_PATH = "schema"` (both source files). -/
def SCHEMA_PATH : String := "schema"

/-- The statement issued by the ListResources handler. -/
def tablesSql : String :=
  "SELECT table_name FROM information_schema.tables WHERE table_schema = 'public'"

/-- The statement issued by the ReadResource handler. -/
def columnsSql : String :=
  "SELECT column_name, data_type FROM information_schema.columns WHERE table_name = $1"

/-- The statement opening the read-only transaction in the CallTool
handler. -/
def beginSql : String := "BEGIN TRANSACTION READ ONLY"

/-- Split a character list at every occurrence of `sep`, keeping empty
pieces, as the JS `String.prototype.split` does. -/
def splitChars (sep : Char) : List Char → List (List Char)
  | [] => [[]]
  | c :: cs =>
      match splitChars sep cs, decide (c = sep) with
      | r, true => [] :: r
      | [], false => [[c]]
      | h :: t, false => (c :: h) :: t

/-- JS `s.split(sep)` for a one-character separator: always returns at
least one piece; `"".split(sep)` is `[""]`. -/
def jsSplit (s : String) (sep : Char) : List String :=
  (splitChars sep s.data).map fun cs => String.mk cs

/-! ## The WHATWG URL value, as the source uses it

The source parses the startup database URL with `new URL(databaseUrl)`
and then assigns `resourceBaseUrl.protocol = "postgres:"` and
`resourceBaseUrl.password = ""`.  The URL class itself is a host
collaborator; we embed the parsed value as a record and the two
assignments as field updates (exact for the non-special `postgres:` /
`postgresql:` scheme family these database URLs use). -/

structure JsUrl where
  protocol : String
  username : String
  password : String
  host : String
  pathname : String
  deriving DecidableEq, Repr

/-- `url.href`: serialization of a URL with a host, as the WHATWG writer
produces it (userinfo present only when nonempty). -/
def JsUrl.href (u : JsUrl) : String :=
  u.protocol ++ "//" ++
    (if u.username = "" ∧ u.password = "" then ""
     else u.username ++ (if u.password = "" then "" else ":" ++ u.password) ++ "@") ++
    u.host ++ u.pathname

/-- Resolution of a relative reference (no leading slash) against a base
pathname: everything after the base's last `/` is replaced, as
`new URL(rel, base)` does. -/
def resolveRelative (basePath : String) (rel : String) : String :=
  String.intercalate "/" (jsSplit basePath '/').dropLast ++ "/" ++ rel

/-- `resourceBaseUrl` setup (`src/unnamed/part_000` lines 34-36,
`src/dist/index.js` lines 66-68): copy the database URL, force the
protocol to `postgres:`, clear the password. -/
def resourceBaseUrlOf (databaseUrl : JsUrl) : JsUrl :=
  { databaseUrl with protocol := "postgres:", password := "" }

/-! ## The four MCP request handlers

Each handler is embedded as a function of its request data plus an
environment describing what the database answers; it returns the trace
of `DbAction`s in program order and its outcome. -/

/-- Outcome of a request handler: a normal return carrying the
JSON-visible payload, or a thrown error with its message. -/
inductive HandlerOutcome (α : Type) where
  | ok : α → HandlerOutcome α
  | thrown : String → HandlerOutcome α
  deriving DecidableEq, Repr

/-- One resource descriptor as the ListResources handler builds it. -/
structure ResourceDescriptor where
  uri : String
  mimeType : String
  name : String
  deriving DecidableEq, Repr

/-- ListResources handler (`src/unnamed/part_000` lines 41-57,
`src/dist/index.js` lines 73-92): connect, query the catalog for public
table names, map each to a descriptor whose `uri` resolves
`"<table>/schema"` against `resourceBaseUrl`, release in `finally`. -/
def listResourcesHandler (databaseUrl : JsUrl)
    (tablesResult : Except String (List String)) :
    List DbAction × HandlerOutcome (List ResourceDescriptor) :=
  let base := resourceBaseUrlOf databaseUrl
  match tablesResult with
  | .error e => ([.connect, .query (some tablesSql), .release], .thrown e)
  | .ok tables =>
      ([.connect, .query (some tablesSql), .release],
       .ok (tables.map fun t =>
         { uri := JsUrl.href { base with
             pathname := resolveRelative base.pathname (t ++ "/" ++ SCHEMA_PATH) }
           mimeType := "application/json"
           name := "\"" ++ t ++ "\" database schema" }))

/-- Payload of a successful ReadResource: the echoed request URI, the
mime type, and the serialized rows. -/
structure ResourceContents where
  uri : String
  mimeType : String
  text : String
  deriving DecidableEq, Repr

/-- ReadResource handler (`src/unnamed/part_000` lines 58-84,
`src/dist/index.js` lines 93-119).  `uri` is the raw request URI (echoed
back in the contents); `pathname` is `new URL(uri).pathname` as parsed
by the host.  The handler splits the pathname on `/`, pops the last
component as `schema` and the next as `tableName`; a mismatch against
`SCHEMA_PATH` throws before any connection is taken.  `columnsResult`
is the catalog's answer as `(column_name, data_type)` pairs. -/
def readResourceHandler (uri : String) (pathname : String)
    (columnsResult : Except String (List (String × String))) :
    List DbAction × HandlerOutcome ResourceContents :=
  let pathComponents := jsSplit pathname '/'
  let schema := pathComponents.getLast?
  let tableName := pathComponents.dropLast.getLast?
  if schema ≠ some SCHEMA_PATH then
    ([], .thrown "Invalid resource URI")
  else
    match columnsResult with
    | .error e => ([.connect, .queryP columnsSql [tableName], .release], .thrown e)
    | .ok cols =>
        ([.connect, .queryP columnsSql [tableName], .release],
         .ok { uri := uri
               mimeType := "application/json"
               text := stringifyRows (cols.map fun c =>
                 [("column_name", c.1), ("data_type", c.2)]) })

/-- Database answers for one CallTool invocation: whether
`BEGIN TRANSACTION READ ONLY` succeeds, what executing the supplied SQL
yields, and whether the fire-and-forget `ROLLBACK` succeeds. -/
structure QueryEnv where
  beginResult : Except String Unit
  execResult : Except String (List Row)
  rollbackOk : Bool
  deriving Repr

/-- Result of one CallTool invocation: the pool/client trace, the
outcome (`ok text` is the `content:[{type:"text", text}], isError:false`
return; `thrown` a propagated error), and whether the `.catch` on the
rollback logged a warning. -/
structure ToolRun where
  trace : List DbAction
  outcome : HandlerOutcome String
  warnedRollback : Bool
  deriving Repr

/-- CallTool handler (`src/unnamed/part_000` lines 101-123,
`src/dist/index.js` lines 136-160).  For name `"query"`: connect, issue
`BEGIN TRANSACTION READ ONLY`, execute `arguments?.sql` exactly as
supplied (possibly `undefined`, modelled `none`) with no parameters,
and in `finally` issue `ROLLBACK` (its failure only caught and logged)
then release.  A `BEGIN` failure skips the execution step; either
failure is rethrown after the `finally` block runs.  Any other name
throws `Unknown tool: <name>` without touching the pool. -/
def callToolHandler (name : String) (sqlArg : Option String)
    (env : QueryEnv) : ToolRun :=
  if name = "query" then
    match env.beginResult with
    | .error e =>
        { trace := [.connect, .query (some beginSql),
                    .query (some "ROLLBACK"), .release]
          outcome := .thrown e
          warnedRollback := !env.rollbackOk }
    | .ok _ =>
        match env.execResult with
        | .error e =>
            { trace := [.connect, .query (some beginSql), .query sqlArg,
                        .query (some "ROLLBACK"), .release]
              outcome := .thrown e
              warnedRollback := !env.rollbackOk }
        | .ok rows =>
            { trace := [.connect, .query (some beginSql), .query sqlArg,
                        .query (some "ROLLBACK"), .release]
              outcome := .ok (stringifyRows rows)
              warnedRollback := !env.rollbackOk }
  else
    { trace := [], outcome := .thrown ("Unknown tool: " ++ name)
      warnedRollback := false }

/-! ## Session transport layer — multiplexed binding (`src/dist/index.js`)

The registry is the plain object `const transports = {}` whose keys are
session identifiers; we embed the key set together with the sets of
per-session `Pool`s and `Server`s the initialization branch allocates
(each tagged by the session identifier it was created for). -/

/-- JS truthiness of a string-or-undefined value (`undefined` and the
empty string are falsy). -/
def truthy (o : Option String) : Prop := o.getD "" ≠ ""

instance (o : Option String) : Decidable (truthy o) :=
  inferInstanceAs (Decidable (o.getD "" ≠ ""))

/-- State of the `dist/index.js` module: registered session identifiers
(keys of `transports`), plus the identifiers for which a dedicated
`Pool` resp. `Server` has been constructed and never torn down. -/
structure DistState where
  transports : List String
  pools : List String
  servers : List String
  deriving DecidableEq, Repr

/-- Outcome of one `POST /mcp` request. -/
inductive McpPostOutcome where
  | handledBySession : String → McpPostOutcome
  | sessionStarted : String → McpPostOutcome
  | badRequest : McpPostOutcome
  | processExit : Nat → McpPostOutcome
  deriving DecidableEq, Repr

/-- `app.post('/mcp')` (`src/dist/index.js` lines 22-180).
`sessionId` is the `mcp-session-id` header; `isInit` the value of
`isInitializeRequest(req.body)`; `newId` the UUID
`sessionIdGenerator` mints when a session is created; `args` is
`process.argv.slice(2)`.  A known (truthy) identifier reuses the stored
transport; a missing identifier with an initialization body runs the
initialization branch, which with empty `args` logs and calls
`process.exit(1)`, and otherwise allocates a fresh `Server` and `Pool`
and registers the minted identifier via `onsessioninitialized`; every
other combination is answered with the 400 JSON-RPC error envelope and
leaves the state untouched. -/
def postMcpHandler (st : DistState) (args : List String)
    (sessionId : Option String) (isInit : Bool) (newId : String) :
    DistState × McpPostOutcome :=
  if truthy sessionId ∧ sessionId.getD "" ∈ st.transports then
    (st, .handledBySession (sessionId.getD ""))
  else if ¬ truthy sessionId ∧ isInit = true then
    if args = [] then
      (st, .processExit 1)
    else
      ({ st with transports := newId :: st.transports
                 pools := newId :: st.pools
                 servers := newId :: st.servers },
       .sessionStarted newId)
  else
    (st, .badRequest)

/-- Outcome of a `GET /mcp`, `DELETE /mcp` or `POST /messages`
request. -/
inductive SessionReqOutcome where
  | handled : String → SessionReqOutcome
  | badRequest : SessionReqOutcome
  deriving DecidableEq, Repr

/-- `handleSessionRequest` (`src/dist/index.js` lines 182-190), shared
by `GET /mcp` and `DELETE /mcp`: a falsy or unregistered
`mcp-session-id` header is answered 400, otherwise the request is
forwarded to the stored transport.  The registry is not modified. -/
def handleSessionRequest (st : DistState) (sessionId : Option String) :
    DistState × SessionReqOutcome :=
  if ¬ truthy sessionId ∨ sessionId.getD "" ∉ st.transports then
    (st, .badRequest)
  else
    (st, .handled (sessionId.getD ""))

/-- `transport.onclose` (`src/dist/index.js` lines 40-44): if the
transport has a (truthy) session identifier, delete that key from
`transports`; nothing else is touched — in particular the per-session
pool and server are not shut down. -/
def oncloseHandler (st : DistState) (transportSessionId : Option String) :
    DistState :=
  if truthy transportSessionId then
    { st with transports :=
        st.transports.filter (· ≠ transportSessionId.getD "") }
  else
    st

/-! ## Session transport layer — push-channel binding
(`src/unnamed/part_000`)

The registry is `const transports = new Map()` keyed by the
transport-generated session identifier. -/

/-- State of the push-channel module: the keys of the `transports`
map. -/
structure SseState where
  transports : List String
  deriving DecidableEq, Repr

/-- `app.get('/sse')` (`src/unnamed/part_000` lines 129-148): a new
transport with identifier `newId` is created unconditionally and
registered. -/
def getSseHandler (st : SseState) (newId : String) : SseState :=
  { st with transports := newId :: st.transports }

/-- The `res.on("close")` handler installed by `app.get('/sse')`
(`src/unnamed/part_000` lines 138-141): `transports.delete(sid)`. -/
def sseOnCloseHandler (st : SseState) (sid : String) : SseState :=
  { st with transports := st.transports.filter (· ≠ sid) }

/-- `app.post('/messages')` (`src/unnamed/part_000` lines 152-161):
look the `sessionId` query parameter up in the map; a missing parameter
or unknown identifier is answered 400, otherwise the message is handed
to the stored transport.  The registry is not modified. -/
def postMessagesHandler (st : SseState) (sessionIdParam : Option String) :
    SseState × SessionReqOutcome :=
  match sessionIdParam with
  | some sid =>
      if sid ∈ st.transports then (st, .handled sid)
      else (st, .badRequest)
  | none => (st, .badRequest)

/-! ## Startup -/

/-- What the process reaches at module load. -/
inductive StartupOutcome where
  | exitedWithError : Nat → StartupOutcome
  | listening : Nat → StartupOutcome
  deriving DecidableEq, Repr

/-- Module load of `src/unnamed/part_000` (lines 28-32, 171): with no
command-line argument the missing database URL is reported and the
process exits with code 1 before `app.listen`; otherwise the server
listens on port 3000. -/
def sseStartup (args : List String) : StartupOutcome :=
  if args = [] then .exitedWithError 1 else .listening 3000

/-- Module load of `src/dist/index.js` (line 194): `app.listen(3000)`
runs unconditionally — the command-line arguments are only examined
inside the `POST /mcp` initialization branch (lines 58-64), so the file
reaches the listening state no matter what `process.argv` holds. -/
def distStartup (_args : List String) : StartupOutcome :=
  .listening 3000

/-! ## Theorems -/

/-- Removing a key from a key list twice is the same as removing it
once. -/
theorem filter_ne_idem (l : List String) (sid : String) :
    (l.filter (· ≠ sid)).filter (· ≠ sid) = l.filter (· ≠ sid) := by
  induction l with
  | nil => rfl
  | cons a t ih =>
      by_cases h : a = sid <;> simp [List.filter_cons, h, ih]

/-- C1: every request on either binding that carries no valid active
session identifier and is not an initialization request — `POST /mcp`
with a missing/unknown `mcp-session-id` header and a
non-initialization body, `GET /mcp` or `DELETE /mcp` with a
missing/unknown header, and `POST /messages` with a missing/unknown
`sessionId` query parameter — is answered with a 400 client error,
creates no session, and leaves the session registry unchanged. -/
theorem no_session_requests_rejected
    (dst : DistState) (sst : SseState) (args : List String)
    (header : Option String) (isInit : Bool) (newId : String)
    (qsid : Option String)
    (hHeader : ∀ s, header = some s → s ∉ dst.transports)
    (hNotInit : isInit = false)
    (hQuery : ∀ s, qsid = some s → s ∉ sst.transports) :
    postMcpHandler dst args header isInit newId = (dst, .badRequest)
    ∧ handleSessionRequest dst header = (dst, .badRequest)
    ∧ postMessagesHandler sst qsid = (sst, .badRequest) := by
  subst hNotInit
  refine ⟨?_, ?_, ?_⟩
  · cases header with
    | none => simp [postMcpHandler, truthy]
    | some s => simp [postMcpHandler, truthy, hHeader s rfl]
  · cases header with
    | none => simp [handleSessionRequest, truthy]
    | some s => simp [handleSessionRequest, truthy, hHeader s rfl]
  · cases qsid with
    | none => simp [postMessagesHandler]
    | some s => simp [postMessagesHandler, hQuery s rfl]

/-- Witness for C1 at concrete inputs: registries `["a"]` and `["w"]`,
unknown identifiers `"b"` / `"z"`, non-initialization body. -/
theorem no_session_requests_rejected_witness :
    postMcpHandler ⟨["a"], ["a"], ["a"]⟩ ["postgres://u@h/db"]
        (some "b") false "n" = (⟨["a"], ["a"], ["a"]⟩, .badRequest)
    ∧ handleSessionRequest ⟨["a"], ["a"], ["a"]⟩ (some "b") =
        (⟨["a"], ["a"], ["a"]⟩, .badRequest)
    ∧ postMessagesHandler ⟨["w"]⟩ (some "z") = (⟨["w"]⟩, .badRequest) :=
  no_session_requests_rejected ⟨["a"], ["a"], ["a"]⟩ ⟨["w"]⟩
    ["postgres://u@h/db"] (some "b") false "n" (some "z")
    (fun s h => by cases h; decide) rfl (fun s h => by cases h; decide)

/-- C2: after a session's closing event the registry entry for its
identifier is gone, closing again has no further effect (removal is
idempotent), and any subsequent request bearing that identifier —
`POST /mcp` (whatever its body), `GET /mcp` / `DELETE /mcp`, or
`POST /messages` — is rejected as an unknown session, on both
bindings. -/
theorem closed_session_rejected
    (dst : DistState) (sst : SseState) (args : List String)
    (isInit : Bool) (newId : String) (sid : String) (hsid : sid ≠ "") :
    sid ∉ (oncloseHandler dst (some sid)).transports
    ∧ oncloseHandler (oncloseHandler dst (some sid)) (some sid) =
        oncloseHandler dst (some sid)
    ∧ postMcpHandler (oncloseHandler dst (some sid)) args (some sid)
        isInit newId = (oncloseHandler dst (some sid), .badRequest)
    ∧ handleSessionRequest (oncloseHandler dst (some sid)) (some sid) =
        (oncloseHandler dst (some sid), .badRequest)
    ∧ sid ∉ (sseOnCloseHandler sst sid).transports
    ∧ sseOnCloseHandler (sseOnCloseHandler sst sid) sid =
        sseOnCloseHandler sst sid
    ∧ postMessagesHandler (sseOnCloseHandler sst sid) (some sid) =
        (sseOnCloseHandler sst sid, .badRequest) := by
  have hmem : sid ∉ dst.transports.filter (· ≠ sid) := by
    simp [List.mem_filter]
  have hmem2 : sid ∉ sst.transports.filter (· ≠ sid) := by
    simp [List.mem_filter]
  refine ⟨?_, ?_, ?_, ?_, ?_, ?_, ?_⟩
  · simp [oncloseHandler, truthy, hsid, List.mem_filter]
  · simp [oncloseHandler, truthy, hsid, filter_ne_idem]
  · simp [postMcpHandler, oncloseHandler, truthy, hsid, hmem]
  · simp [handleSessionRequest, oncloseHandler, truthy, hsid, hmem]
  · simp [sseOnCloseHandler, List.mem_filter]
  · simp [sseOnCloseHandler, filter_ne_idem]
  · simp [postMessagesHandler, sseOnCloseHandler, hmem2]

/-- Witness for C2 at a concrete registry holding sessions `"s"` and
`"t"`, closing `"s"`. -/
theorem closed_session_rejected_witness :
    "s" ∉ (oncloseHandler ⟨["s", "t"], ["s", "t"], ["s", "t"]⟩ (some "s")).transports
    ∧ oncloseHandler (oncloseHandler ⟨["s", "t"], ["s", "t"], ["s", "t"]⟩ (some "s"))
        (some "s") = oncloseHandler ⟨["s", "t"], ["s", "t"], ["s", "t"]⟩ (some "s")
    ∧ postMcpHandler (oncloseHandler ⟨["s", "t"], ["s", "t"], ["s", "t"]⟩ (some "s"))
        [] (some "s") true "n" =
        (oncloseHandler ⟨["s", "t"], ["s", "t"], ["s", "t"]⟩ (some "s"), .badRequest)
    ∧ handleSessionRequest
        (oncloseHandler ⟨["s", "t"], ["s", "t"], ["s", "t"]⟩ (some "s")) (some "s") =
        (oncloseHandler ⟨["s", "t"], ["s", "t"], ["s", "t"]⟩ (some "s"), .badRequest)
    ∧ "s" ∉ (sseOnCloseHandler ⟨["s"]⟩ "s").transports
    ∧ sseOnCloseHandler (sseOnCloseHandler ⟨["s"]⟩ "s") "s" =
        sseOnCloseHandler ⟨["s"]⟩ "s"
    ∧ postMessagesHandler (sseOnCloseHandler ⟨["s"]⟩ "s") (some "s") =
        (sseOnCloseHandler ⟨["s"]⟩ "s", .badRequest) :=
  closed_session_rejected ⟨["s", "t"], ["s", "t"], ["s", "t"]⟩ ⟨["s"]⟩
    [] true "n" "s" (by decide)

/-- C6: `callTool` with any name other than `"query"` throws
`Unknown tool: <name>` and performs no pool action at all — no
connection is acquired and no statement is issued. -/
theorem unknown_tool_rejected
    (name : String) (sqlArg : Option String) (env : QueryEnv)
    (h : name ≠ "query") :
    callToolHandler name sqlArg env =
      { trace := [], outcome := .thrown ("Unknown tool: " ++ name),
        warnedRollback := false } := by
  simp [callToolHandler, h]

/-- Witness for C6 at the concrete tool name `"exec"`. -/
theorem unknown_tool_rejected_witness :
    callToolHandler "exec" (some "SELECT 1") ⟨.ok (), .ok [], true⟩ =
      { trace := [], outcome := .thrown ("Unknown tool: " ++ "exec"),
        warnedRollback := false } :=
  unknown_tool_rejected "exec" (some "SELECT 1") ⟨.ok (), .ok [], true⟩
    (by decide)

/-- C3: every `callTool("query", …)` invocation connects, opens the
read-only transaction, executes the supplied `sql` verbatim with no
parameter binding (when the `BEGIN` succeeded), and on every outcome
issues `ROLLBACK` before `release`; the only statements the handler
ever issues of its own are the `BEGIN` and the `ROLLBACK` — never a
commit; a rollback failure only sets the warning flag and never changes
the outcome. -/
theorem call_tool_query_rollback
    (sqlArg : Option String) (env : QueryEnv) (b : Bool) :
    (callToolHandler "query" sqlArg env).trace =
      DbAction.connect :: DbAction.query (some beginSql) ::
        ((match env.beginResult with
          | .ok _ => [DbAction.query sqlArg]
          | .error _ => []) ++
         [DbAction.query (some "ROLLBACK"), DbAction.release])
    ∧ (∀ s, DbAction.query s ∈ (callToolHandler "query" sqlArg env).trace →
        s = some beginSql ∨ s = sqlArg ∨ s = some "ROLLBACK")
    ∧ (callToolHandler "query" sqlArg { env with rollbackOk := b }).outcome =
        (callToolHandler "query" sqlArg env).outcome
    ∧ (callToolHandler "query" sqlArg env).warnedRollback =
        !env.rollbackOk := by
  obtain ⟨hb, he, hr⟩ := env
  cases hb <;> cases he <;> simp [callToolHandler]

/-- Witness for C3 at the concrete call
`callTool("query", \x7bsql: "SELECT 1"\x7d)` with a successful
execution and a failing rollback. -/
theorem call_tool_query_rollback_witness :
    (callToolHandler "query" (some "SELECT 1") ⟨.ok (), .ok [], false⟩).trace =
      [.connect, .query (some beginSql), .query (some "SELECT 1"),
       .query (some "ROLLBACK"), .release]
    ∧ ((some "SELECT 1" : Option String) = some beginSql
        ∨ (some "SELECT 1" : Option String) = some "SELECT 1"
        ∨ (some "SELECT 1" : Option String) = some "ROLLBACK")
    ∧ (callToolHandler "query" (some "SELECT 1")
        ⟨.ok (), .ok [], true⟩).outcome =
      (callToolHandler "query" (some "SELECT 1") ⟨.ok (), .ok [], false⟩).outcome
    ∧ (callToolHandler "query" (some "SELECT 1")
        ⟨.ok (), .ok [], false⟩).warnedRollback = true := by
  have h := call_tool_query_rollback (some "SELECT 1") ⟨.ok (), .ok [], false⟩ true
  refine ⟨h.1, ?_, h.2.2.1, h.2.2.2⟩
  exact h.2.1 (some "SELECT 1") (by decide)

/-- C4: on every Data-Store Gateway operation — `listResources`,
`readResource`, `callTool` — and every outcome, the number of `release`
actions in the trace equals the number of `connect` actions, and at
most one connection is ever acquired: an acquired connection is
released back to the pool exactly once on every exit path. -/
theorem connection_released_exactly_once
    (dbUrl : JsUrl) (tablesResult : Except String (List String))
    (uri pathname : String)
    (columnsResult : Except String (List (String × String)))
    (name : String) (sqlArg : Option String) (env : QueryEnv) :
    ((listResourcesHandler dbUrl tablesResult).1.count .release =
        (listResourcesHandler dbUrl tablesResult).1.count .connect
      ∧ (listResourcesHandler dbUrl tablesResult).1.count .connect ≤ 1)
    ∧ ((readResourceHandler uri pathname columnsResult).1.count .release =
        (readResourceHandler uri pathname columnsResult).1.count .connect
      ∧ (readResourceHandler uri pathname columnsResult).1.count .connect ≤ 1)
    ∧ ((callToolHandler name sqlArg env).trace.count .release =
        (callToolHandler name sqlArg env).trace.count .connect
      ∧ (callToolHandler name sqlArg env).trace.count .connect ≤ 1) := by
  refine ⟨?_, ?_, ?_⟩
  · cases tablesResult <;> simp [listResourcesHandler]
  · cases columnsResult <;> simp only [readResourceHandler] <;>
      split <;> simp
  · by_cases h : name = "query"
    · obtain ⟨hb, he, hr⟩ := env
      cases hb <;> cases he <;> simp [callToolHandler, h]
    · simp [callToolHandler, h]

/-- C5: `readResource` fails with the invalid-resource error exactly
when the final path segment of the URI is not `"schema"`, and in that
case performs no pool action at all; when the final segment is
`"schema"` it acquires a connection, queries the catalog
parameterized by the collection name, releases, and on a successful
catalog answer returns the column name/type pairs serialized as a JSON
array of `column_name` / `data_type` objects. -/
theorem read_resource_schema_check
    (uri pathname : String)
    (columnsResult : Except String (List (String × String))) :
    ((jsSplit pathname '/').getLast? ≠ some "schema" →
      readResourceHandler uri pathname columnsResult =
        ([], .thrown "Invalid resource URI"))
    ∧ ((jsSplit pathname '/').getLast? = some "schema" →
      (readResourceHandler uri pathname columnsResult).1 =
        [.connect,
         .queryP columnsSql [(jsSplit pathname '/').dropLast.getLast?],
         .release]
      ∧ ∀ cols, columnsResult = .ok cols →
          (readResourceHandler uri pathname columnsResult).2 =
            .ok { uri := uri
                  mimeType := "application/json"
                  text := stringifyRows (cols.map fun c =>
                    [("column_name", c.1), ("data_type", c.2)]) }) := by
  constructor
  · intro h
    simp [readResourceHandler, SCHEMA_PATH, h]
  · intro h
    cases columnsResult <;>
      simp_all [readResourceHandler, SCHEMA_PATH]

/-- Witness for C5 at the concrete pathnames `/orders/schema` (valid)
and `/orders/data` (invalid), catalog answering
`[(id, integer)]`. -/
theorem read_resource_schema_check_witness :
    readResourceHandler "postgres://h/orders/data" "/orders/data"
        (.ok [("id", "integer")]) = ([], .thrown "Invalid resource URI")
    ∧ (readResourceHandler "postgres://h/orders/schema" "/orders/schema"
         (.ok [("id", "integer")])).1 =
        [.connect, .queryP columnsSql [some "orders"], .release]
    ∧ (readResourceHandler "postgres://h/orders/schema" "/orders/schema"
         (.ok [("id", "integer")])).2 =
        .ok { uri := "postgres://h/orders/schema"
              mimeType := "application/json"
              text := stringifyRows [[("column_name", "id"),
                                      ("data_type", "integer")]] } := by
  have h1 := (read_resource_schema_check "postgres://h/orders/data"
    "/orders/data" (.ok [("id", "integer")])).1 (by decide)
  have h2 := (read_resource_schema_check "postgres://h/orders/schema"
    "/orders/schema" (.ok [("id", "integer")])).2 (by decide)
  exact ⟨h1, h2.1, h2.2 [("id", "integer")] rfl⟩

/-- C7 counterexample: with no command-line argument the multiplexed
binding (`src/dist/index.js`) still reaches the listening state —
`app.listen(3000)` runs unconditionally at module load — and serves a
request (here a non-initialization `POST /mcp`, answered 400) without
exiting: the process does not exit before serving any request. -/
theorem dist_startup_without_args_serves :
    distStartup [] = .listening 3000
    ∧ postMcpHandler ⟨[], [], []⟩ [] (some "s") false "n" =
        (⟨[], [], []⟩, .badRequest)
    ∧ handleSessionRequest ⟨[], [], []⟩ (some "s") =
        (⟨[], [], []⟩, .badRequest) := by
  refine ⟨rfl, ?_, ?_⟩ <;> simp [postMcpHandler, handleSessionRequest, truthy]

/-- C7 (amended): with no command-line argument the push-channel
binding (`src/unnamed/part_000`) reports the missing database URL and
exits with code 1 before listening; the multiplexed binding
(`src/dist/index.js`) listens regardless and only runs the missing-URL
check — reporting and exiting with code 1 — inside the `POST /mcp`
initialization branch, i.e. when the first initialization request
arrives. -/
theorem startup_missing_url
    (args : List String) (st : DistState) (newId : String)
    (h : args = []) :
    sseStartup args = .exitedWithError 1
    ∧ distStartup args = .listening 3000
    ∧ postMcpHandler st args none true newId = (st, .processExit 1) := by
  subst h
  refine ⟨rfl, rfl, ?_⟩
  simp [postMcpHandler, truthy]

/-- Witness for the amended C7 at the empty argument list and an empty
registry. -/
theorem startup_missing_url_witness :
    sseStartup [] = .exitedWithError 1
    ∧ distStartup [] = .listening 3000
    ∧ postMcpHandler ⟨[], [], []⟩ [] none true "n" =
        (⟨[], [], []⟩, .processExit 1) :=
  startup_missing_url [] ⟨[], [], []⟩ "n" rfl

/-- C8: in the multiplexed binding every successful session
initialization registers the freshly minted identifier and allocates a
fresh per-session `Server` and `Pool` for it; closing a session only
deletes the registry entry for its identifier — the pool and server
sets are left untouched by the close handler. -/
theorem session_resources_lifecycle
    (st : DistState) (args : List String) (header : Option String)
    (newId : String) (sid : Option String)
    (hheader : ¬ truthy header) (hargs : args ≠ []) :
    postMcpHandler st args header true newId =
      ({ transports := newId :: st.transports
         pools := newId :: st.pools
         servers := newId :: st.servers }, .sessionStarted newId)
    ∧ (oncloseHandler st sid).pools = st.pools
    ∧ (oncloseHandler st sid).servers = st.servers
    ∧ (∀ s, sid = some s → s ≠ "" →
        (oncloseHandler st sid).transports =
          st.transports.filter (· ≠ s)) := by
  refine ⟨?_, ?_, ?_, ?_⟩
  · have h1 : ¬ (truthy header ∧ header.getD "" ∈ st.transports) :=
      fun hc => hheader hc.1
    simp [postMcpHandler, h1, hheader, hargs]
  · unfold oncloseHandler; split <;> rfl
  · unfold oncloseHandler; split <;> rfl
  · intro s hs hne
    subst hs
    simp [oncloseHandler, truthy, hne]

/-- Witness for C8 at a concrete one-session state, initializing
session `"n"` and closing session `"a"`. -/
theorem session_resources_lifecycle_witness :
    postMcpHandler ⟨["a"], ["a"], ["a"]⟩ ["postgres://u@h/db"] none true "n" =
      ({ transports := ["n", "a"], pools := ["n", "a"],
         servers := ["n", "a"] }, .sessionStarted "n")
    ∧ (oncloseHandler ⟨["a"], ["a"], ["a"]⟩ (some "a")).pools = ["a"]
    ∧ (oncloseHandler ⟨["a"], ["a"], ["a"]⟩ (some "a")).servers = ["a"]
    ∧ (∀ s, some "a" = some s → s ≠ "" →
        (oncloseHandler (⟨["a"], ["a"], ["a"]⟩ : DistState) (some "a")).transports =
          ["a"].filter (· ≠ s)) :=
  session_resources_lifecycle ⟨["a"], ["a"], ["a"]⟩ ["postgres://u@h/db"]
    none "n" (some "a") (by simp [truthy]) (by simp)

/-- C9: `callTool("query", …)` does not validate the `sql` argument:
with `arguments?.sql` absent (`none`, JS `undefined`) the handler still
acquires a connection and opens the read-only transaction as its first
two actions, then submits the undefined value for execution, and the
failure surfaces from the execution step as the propagated error — not
from any argument validation before a connection is taken. -/
theorem call_tool_missing_sql_executes (env : QueryEnv) :
    (callToolHandler "query" none env).trace.take 2 =
      [.connect, .query (some beginSql)]
    ∧ (env.beginResult = .ok () →
        DbAction.query none ∈ (callToolHandler "query" none env).trace)
    ∧ (∀ e, env.beginResult = .ok () → env.execResult = .error e →
        (callToolHandler "query" none env).outcome = .thrown e) := by
  obtain ⟨hb, he, hr⟩ := env
  cases hb <;> cases he <;> simp [callToolHandler]

/-- Witness for C9: a missing `sql` argument with the execution step
failing with `"syntax error"`. -/
theorem call_tool_missing_sql_executes_witness :
    (callToolHandler "query" none ⟨.ok (), .error "syntax error", true⟩).trace.take 2 =
      [.connect, .query (some beginSql)]
    ∧ DbAction.query none ∈
        (callToolHandler "query" none ⟨.ok (), .error "syntax error", true⟩).trace
    ∧ (callToolHandler "query" none ⟨.ok (), .error "syntax error", true⟩).outcome =
        .thrown "syntax error" := by
  have h := call_tool_missing_sql_executes ⟨.ok (), .error "syntax error", true⟩
  exact ⟨h.1, h.2.1 rfl, h.2.2 "syntax error" rfl rfl⟩

/-- C10: the resource base URL has its password cleared and its
protocol forced to `postgres:`; consequently two startup database URLs
that agree outside the password and protocol fields produce identical
`listResources` results — no descriptor, in particular no URI, depends
on the password.  (`readResource` takes no database URL at all, so its
output cannot mention the password either.) -/
theorem resource_uris_password_free
    (u1 u2 : JsUrl) (tablesResult : Except String (List String))
    (huser : u1.username = u2.username) (hhost : u1.host = u2.host)
    (hpath : u1.pathname = u2.pathname) :
    listResourcesHandler u1 tablesResult = listResourcesHandler u2 tablesResult
    ∧ (resourceBaseUrlOf u1).password = ""
    ∧ (resourceBaseUrlOf u1).protocol = "postgres:" := by
  have hbase : resourceBaseUrlOf u1 = resourceBaseUrlOf u2 := by
    cases u1; cases u2
    simp_all [resourceBaseUrlOf]
  refine ⟨?_, rfl, rfl⟩
  unfold listResourcesHandler
  rw [hbase]

/-- Witness for C10: a database URL carrying password `"hunter2"`
over scheme `postgresql:` against the same URL with no password over
scheme `http:` yield the same `listResources` result for table
`orders`. -/
theorem resource_uris_password_free_witness :
    listResourcesHandler ⟨"postgresql:", "u", "hunter2", "h", "/db"⟩
        (.ok ["orders"]) =
      listResourcesHandler ⟨"http:", "u", "", "h", "/db"⟩ (.ok ["orders"])
    ∧ (resourceBaseUrlOf ⟨"postgresql:", "u", "hunter2", "h", "/db"⟩).password = ""
    ∧ (resourceBaseUrlOf ⟨"postgresql:", "u", "hunter2", "h", "/db"⟩).protocol =
        "postgres:" :=
  resource_uris_password_free ⟨"postgresql:", "u", "hunter2", "h", "/db"⟩
    ⟨"http:", "u", "", "h", "/db"⟩ (.ok ["orders"]) rfl rfl rfl

end McpPostgres
